/-
Verification of the ClawPay gatekeeper core against its specification.

The TypeScript sources are embedded shallowly:
  * `PolicyEngine.evaluate`, `getTodaySpending`, `getMonthSpending`,
    `logTransaction`  (src/core/policy.ts)
  * `ClawPay.requestCard`, `logTransaction` façade  (src/core/clawpay.ts)
  * `requestApproval` routing  (src/approval/index.ts)
  * `whatsappApproval` / `terminalApproval` reply handling
    (src/approval/whatsapp.ts, src/approval/terminal.ts)
  * `Vault.encrypt` / `Vault.decrypt`  (src/core/vault.ts); the AES-256-GCM
    primitive itself lives in node:crypto, outside this repository, and is
    modelled from the specification (see `xorStream` below).

JavaScript numbers are modelled as exact rationals (ℚ), timestamps as ℤ
(milliseconds), strings as Lean `String`.  File I/O is externalized: the
transaction log and the local-clock day/month boundaries are explicit
arguments.
-/
import Mathlib

namespace Clawpay

/-! ## Data model (src/types/index.ts) -/

/-- PaymentRequest from src/types/index.ts: amount, merchant, description,
optional currency override, optional metadata map. -/
structure PaymentRequest where
  amount : ℚ
  merchant : String
  description : String
  currency : Option String
  metadata : List (String × String)
deriving DecidableEq

/-- The action component of a PolicyResult. -/
inductive PolicyAction where
  | auto_approve
  | require_approval
  | deny
deriving DecidableEq

/-- PolicyResult from src/types/index.ts: an action plus a human-readable
reason string. -/
structure PolicyResult where
  action : PolicyAction
  reason : String
deriving DecidableEq

/-- The approvedBy tag of a TransactionLog. -/
inductive ApprovedBy where
  | auto
  | human
deriving DecidableEq

/-- TransactionLog from src/types/index.ts.  `timestamp` is a JS
`Date.now()` millisecond count. -/
structure TransactionLog where
  id : String
  timestamp : Int
  payment : PaymentRequest
  policyResult : PolicyResult
  approved : Bool
  approvedBy : ApprovedBy
deriving DecidableEq

/-- PolicyConfig from src/types/index.ts.  `monthlyLimit` is optional in the
source (`monthlyLimit?: number`); `allowedMerchants` and `blockedMerchants`
are optional arrays, but the code only ever tests `?.length`, under which an
absent array behaves exactly like `[]`, so they are embedded as plain lists. -/
structure PolicyConfig where
  autoApproveUnder : ℚ
  requireApprovalAbove : ℚ
  blockAbove : ℚ
  dailyLimit : ℚ
  monthlyLimit : Option ℚ
  blockedKeywords : List String
  allowedMerchants : List String
  blockedMerchants : List String
  currency : String
deriving DecidableEq

/-! ## String helpers: JS `String.prototype.includes` and number rendering -/

/-- Models JavaScript `hay.includes(needle)` on the underlying character
lists: true when `needle` occurs as a contiguous substring of `hay`. -/
def jsIncludes (needle : List Char) : List Char → Bool
  | [] => needle.isPrefixOf []
  | c :: rest => needle.isPrefixOf (c :: rest) || jsIncludes needle rest

/-- JS `hay.includes(needle)` lifted to `String`. -/
def strIncludes (hay needle : String) : Bool :=
  jsIncludes needle.data hay.data

/-- Models JavaScript `s.toLowerCase()`: lower-cases every character (same
per-character mapping as Lean's `String.toLower`, written over the character
list so that concrete instances evaluate inside the kernel). -/
def jsToLower (s : String) : String := ⟨s.data.map Char.toLower⟩

/-- ASCII whitespace recognized by JS `trim`. -/
def isJsWhitespace (c : Char) : Bool := c == ' ' || c == '\t' || c == '\n' || c == '\r'

/-- Models JavaScript `s.trim()`: strips leading and trailing whitespace. -/
def jsTrim (s : String) : String :=
  ⟨((s.data.dropWhile isJsWhitespace).reverse.dropWhile isJsWhitespace).reverse⟩

/-- Renders a rational the way a JS template literal renders the number.
Integral values (the only ones the spec's scenarios exercise) render
identically to JS; non-integral values are rendered as a fraction. -/
def fmtRat (q : ℚ) : String :=
  if q.den = 1 then toString q.num else toString q.num ++ "/" ++ toString q.den

/-- Renders `q.toFixed(2)`: two decimal places, rounding half away from
zero on the exact rational. -/
def fmtFixed2 (q : ℚ) : String :=
  let cents : Int := (q * 100 + 1 / 2).floor
  toString (cents / 100) ++ "." ++
    (if (cents % 100).toNat < 10 then "0" else "") ++ toString (cents % 100).toNat

/-- JS truthiness of an optional number: `undefined`, `0` are falsy. -/
def jsTruthyNum : Option ℚ → Bool
  | none => false
  | some m => m != 0

/-- JS truthiness of an optional string: `undefined` and `""` are falsy. -/
def jsTruthyStr : Option String → Bool
  | none => false
  | some s => s != ""

/-! ## Spend aggregation (PolicyEngine.getTodaySpending / getMonthSpending) -/

/-- PolicyEngine.getTodaySpending: filters the parsed transaction log to
entries with `l.approved && l.timestamp >= startOfDay.getTime()` and reduces
their payment amounts.  The log contents and the local-midnight timestamp
are explicit arguments (the source reads them from disk and the wall clock). -/
def getTodaySpending (logs : List TransactionLog) (startOfDay : Int) : ℚ :=
  (logs.filter fun l => l.approved && decide (startOfDay ≤ l.timestamp)).foldl
    (fun sum l => sum + l.payment.amount) 0

/-- PolicyEngine.getMonthSpending: same shape with the first-of-month
midnight timestamp. -/
def getMonthSpending (logs : List TransactionLog) (startOfMonth : Int) : ℚ :=
  (logs.filter fun l => l.approved && decide (startOfMonth ≤ l.timestamp)).foldl
    (fun sum l => sum + l.payment.amount) 0

/-! ## PolicyEngine.evaluate (src/core/policy.ts) -/

/-- PolicyEngine.evaluate, with the early-return chain of the source turned
into nested conditionals.  The guards mirror the TypeScript exactly:
`?.length` guards before the merchant/keyword scans, `find`/`some` scans with
case-insensitive `includes`, JS truthiness of the found element
(`const blocked = ...find(...); if (blocked)` — an empty-string entry is
falsy), and the JS-truthiness test `if (this.policy.monthlyLimit)` before
the monthly-limit check. -/
def evaluate (request : PaymentRequest) (policy : PolicyConfig)
    (logs : List TransactionLog) (startOfDay startOfMonth : Int) : PolicyResult :=
  let amount := request.amount
  if amount > policy.blockAbove then
    { action := .deny
      reason := "Amount $" ++ fmtRat amount ++ " exceeds maximum allowed ($" ++
        fmtRat policy.blockAbove ++ ")" }
  else
    let merchantLower := jsToLower request.merchant
    let blocked := if policy.blockedMerchants.length != 0 then
        policy.blockedMerchants.find? (fun m => strIncludes merchantLower (jsToLower m))
      else none
    if jsTruthyStr blocked then
      { action := .deny
        reason := "Merchant \"" ++ request.merchant ++ "\" is blocked by policy" }
    else
      if policy.allowedMerchants.length != 0 &&
          !(policy.allowedMerchants.any (fun m => strIncludes merchantLower (jsToLower m))) then
        { action := .deny
          reason := "Merchant \"" ++ request.merchant ++ "\" is not in the allowed list" }
      else
        let hit := if policy.blockedKeywords.length != 0 then
            policy.blockedKeywords.find? (fun kw =>
              strIncludes (jsToLower request.description) (jsToLower kw) ||
              strIncludes merchantLower (jsToLower kw))
          else none
        if jsTruthyStr hit then
          { action := .deny
            reason := "Blocked keyword \"" ++ hit.getD "" ++ "\" found in request" }
        else
          let todaySpent := getTodaySpending logs startOfDay
          if todaySpent + amount > policy.dailyLimit then
            { action := .deny
              reason := "Daily limit exceeded. Spent today: $" ++ fmtFixed2 todaySpent ++
                ", limit: $" ++ fmtRat policy.dailyLimit }
          else
            let proceed : PolicyResult :=
              if amount ≤ policy.autoApproveUnder then
                { action := .auto_approve
                  reason := "Amount $" ++ fmtRat amount ++
                    " is under auto-approve threshold ($" ++
                    fmtRat policy.autoApproveUnder ++ ")" }
              else
                { action := .require_approval
                  reason := "Amount $" ++ fmtRat amount ++
                    " requires human approval (threshold: $" ++
                    fmtRat policy.requireApprovalAbove ++ ")" }
            if jsTruthyNum policy.monthlyLimit then
              let m := policy.monthlyLimit.getD 0
              let monthSpent := getMonthSpending logs startOfMonth
              if monthSpent + amount > m then
                { action := .deny
                  reason := "Monthly limit exceeded. Spent this month: $" ++
                    fmtFixed2 monthSpent ++ ", limit: $" ++ fmtRat m }
              else proceed
            else proceed

/-! ## The spec's ordered-rule reading of the evaluator (for claim C1) -/

/-- First-matching-rule selection over an ordered rule list, as the spec
words the evaluator: first matching rule wins, short-circuit, with a default
when no rule matches. -/
def firstMatch (dflt : PolicyAction) : List (Bool × PolicyAction) → PolicyAction
  | [] => dflt
  | (cond, act) :: rest => if cond then act else firstMatch dflt rest

/-- Case-insensitive substring scan of a merchant against a list of entries
(the spec's rules 2 and 3). -/
def merchantHitsList (merchant : String) (entries : List String) : Bool :=
  entries.any (fun m => strIncludes (jsToLower merchant) (jsToLower m))

/-- Case-insensitive keyword scan over description and merchant (the spec's
rule 4). -/
def keywordHit (request : PaymentRequest) (kws : List String) : Bool :=
  kws.any (fun kw =>
    strIncludes (jsToLower request.description) (jsToLower kw) ||
    strIncludes (jsToLower request.merchant) (jsToLower kw))

/-- The eight checks in the order the claim lists them, rule 6 guarded by
the claim's words "when a monthly limit is configured" read as: the optional
monthly limit is present. -/
def claimRules (request : PaymentRequest) (policy : PolicyConfig)
    (logs : List TransactionLog) (startOfDay startOfMonth : Int) :
    List (Bool × PolicyAction) :=
  [ (decide (request.amount > policy.blockAbove), .deny),
    (merchantHitsList request.merchant policy.blockedMerchants, .deny),
    (decide (policy.allowedMerchants ≠ []) &&
       !(merchantHitsList request.merchant policy.allowedMerchants), .deny),
    (keywordHit request policy.blockedKeywords, .deny),
    (decide (getTodaySpending logs startOfDay + request.amount > policy.dailyLimit), .deny),
    ((match policy.monthlyLimit with
      | some m => decide (getMonthSpending logs startOfMonth + request.amount > m)
      | none => false), .deny),
    (decide (request.amount ≤ policy.autoApproveUnder), .auto_approve) ]

/-- The claim's ordered-rule evaluator (rules 1-7, rule 8 as the default). -/
def evaluateClaimSpec (request : PaymentRequest) (policy : PolicyConfig)
    (logs : List TransactionLog) (startOfDay startOfMonth : Int) : PolicyAction :=
  firstMatch .require_approval (claimRules request policy logs startOfDay startOfMonth)

/-- The same rules amended to match the code's JS-truthiness semantics:
rules 2 and 4 fire only when the FIRST matching entry/keyword is a non-empty
string (`const blocked = ...find(...); if (blocked)`), and rule 6 fires only
when the configured monthly limit is present AND non-zero
(`if (this.policy.monthlyLimit)`). -/
def claimRulesAmended (request : PaymentRequest) (policy : PolicyConfig)
    (logs : List TransactionLog) (startOfDay startOfMonth : Int) :
    List (Bool × PolicyAction) :=
  [ (decide (request.amount > policy.blockAbove), .deny),
    (jsTruthyStr (policy.blockedMerchants.find?
       (fun m => strIncludes (jsToLower request.merchant) (jsToLower m))), .deny),
    (decide (policy.allowedMerchants ≠ []) &&
       !(merchantHitsList request.merchant policy.allowedMerchants), .deny),
    (jsTruthyStr (policy.blockedKeywords.find? (fun kw =>
       strIncludes (jsToLower request.description) (jsToLower kw) ||
       strIncludes (jsToLower request.merchant) (jsToLower kw))), .deny),
    (decide (getTodaySpending logs startOfDay + request.amount > policy.dailyLimit), .deny),
    ((match policy.monthlyLimit with
      | some m => decide (m ≠ 0) &&
          decide (getMonthSpending logs startOfMonth + request.amount > m)
      | none => false), .deny),
    (decide (request.amount ≤ policy.autoApproveUnder), .auto_approve) ]

/-- The amended ordered-rule evaluator. -/
def evaluateAmendedSpec (request : PaymentRequest) (policy : PolicyConfig)
    (logs : List TransactionLog) (startOfDay startOfMonth : Int) : PolicyAction :=
  firstMatch .require_approval (claimRulesAmended request policy logs startOfDay startOfMonth)

/-! ## Supporting lemmas -/

theorem guardedFind_eq_find {α : Type} (f : α → Bool) (l : List α) :
    (if l.length != 0 then l.find? f else none) = l.find? f := by
  cases l <;> rfl

theorem length_bne_zero_eq_decide_ne_nil {α : Type} [DecidableEq α] (l : List α) :
    (l.length != 0) = decide (l ≠ []) := by
  cases l <;> simp

/-! ## Claim C1 -/

/-- Configuration with a monthly limit explicitly configured as zero: this is
where the code's JS-truthiness guard and the claim's "configured" disagree. -/
def c1Config : PolicyConfig :=
  { autoApproveUnder := 25
    requireApprovalAbove := 25
    blockAbove := 1000
    dailyLimit := 200
    monthlyLimit := some 0
    blockedKeywords := []
    allowedMerchants := []
    blockedMerchants := []
    currency := "USD" }

/-- A benign small request. -/
def c1Request : PaymentRequest :=
  { amount := 1
    merchant := "store.com"
    description := "pens"
    currency := none
    metadata := [] }

/-- Claim C1 as stated is false: with a monthly limit configured as `0`, the
claim's rule 6 ("when a monthly limit is configured ... exceeding it gives
deny") fires (0 spent + 1 > 0), but the code's JS-truthiness guard
`if (this.policy.monthlyLimit)` skips the check for `0`, and the request is
auto-approved. -/
theorem evaluate_ne_claim_rule_order :
    (evaluate c1Request c1Config [] 0 0).action ≠
      evaluateClaimSpec c1Request c1Config [] 0 0 := by
  have hc : (evaluate c1Request c1Config [] 0 0).action = .auto_approve := by
    norm_num [evaluate, c1Request, c1Config, getTodaySpending, getMonthSpending,
      jsTruthyNum, jsTruthyStr]
  have hs : evaluateClaimSpec c1Request c1Config [] 0 0 = .deny := by
    norm_num [evaluateClaimSpec, claimRules, firstMatch, c1Request, c1Config,
      getTodaySpending, getMonthSpending, merchantHitsList, keywordHit]
  rw [hc, hs]
  decide

/-- C1 amended: PolicyEngine.evaluate applies its checks in the fixed order
the claim lists, first matching rule winning and short-circuiting, with rule
6 amended to fire only when the configured monthly limit is present and
non-zero (JS truthiness). -/
theorem evaluate_first_matching_rule_wins (r : PaymentRequest) (p : PolicyConfig)
    (logs : List TransactionLog) (sod som : Int) :
    (evaluate r p logs sod som).action = evaluateAmendedSpec r p logs sod som := by
  simp only [evaluate, evaluateAmendedSpec, claimRulesAmended, firstMatch]
  simp only [guardedFind_eq_find]
  simp only [length_bne_zero_eq_decide_ne_nil, merchantHitsList]
  simp only [decide_eq_true_eq]
  by_cases h1 : r.amount > p.blockAbove
  · rw [if_pos h1, if_pos h1]
  · rw [if_neg h1, if_neg h1]
    by_cases h2 : jsTruthyStr (p.blockedMerchants.find?
        (fun m => strIncludes (jsToLower r.merchant) (jsToLower m))) = true
    · rw [if_pos h2, if_pos h2]
    · rw [if_neg h2, if_neg h2]
      by_cases h3 : (decide (p.allowedMerchants ≠ []) &&
          !(p.allowedMerchants.any (fun m => strIncludes (jsToLower r.merchant) (jsToLower m)))) = true
      · rw [if_pos h3, if_pos h3]
      · rw [if_neg h3, if_neg h3]
        by_cases h4 : jsTruthyStr (p.blockedKeywords.find? (fun kw =>
            strIncludes (jsToLower r.description) (jsToLower kw) ||
            strIncludes (jsToLower r.merchant) (jsToLower kw))) = true
        · rw [if_pos h4, if_pos h4]
        · rw [if_neg h4, if_neg h4]
          by_cases h5 : getTodaySpending logs sod + r.amount > p.dailyLimit
          · rw [if_pos h5, if_pos h5]
          · rw [if_neg h5, if_neg h5]
            rcases hm : p.monthlyLimit with _ | m
            · by_cases h7 : r.amount ≤ p.autoApproveUnder <;> simp [jsTruthyNum, h7]
            · by_cases hm0 : m = 0
              · by_cases h7 : r.amount ≤ p.autoApproveUnder <;>
                  simp [jsTruthyNum, hm0, h7]
              · by_cases h6 : getMonthSpending logs som + r.amount > m
                · simp [jsTruthyNum, hm0, h6, bne_iff_ne]
                · by_cases h7 : r.amount ≤ p.autoApproveUnder <;>
                    simp [jsTruthyNum, hm0, h6, h7, bne_iff_ne]

/-! ## Substring lemmas for reason strings -/

theorem isPrefixOf_append_self (b c : List Char) : b.isPrefixOf (b ++ c) = true := by
  induction b with
  | nil => simp [List.isPrefixOf]
  | cons x t ih => simp [List.isPrefixOf, ih]

theorem jsIncludes_self_append (n post : List Char) : jsIncludes n (n ++ post) = true := by
  cases n with
  | nil => cases post <;> simp [jsIncludes]
  | cons x t => simp [jsIncludes, List.isPrefixOf, isPrefixOf_append_self]

theorem jsIncludes_append_left (pre n hay : List Char) (h : jsIncludes n hay = true) :
    jsIncludes n (pre ++ hay) = true := by
  induction pre with
  | nil => simpa using h
  | cons c t ih => simp [jsIncludes, ih]

theorem strIncludes_second_of_five (a b c d e : String) :
    strIncludes (a ++ b ++ c ++ d ++ e) b = true := by
  simp only [strIncludes, String.data_append, List.append_assoc]
  exact jsIncludes_append_left _ _ _ (jsIncludes_self_append _ _)

theorem strIncludes_fourth_of_five (a b c d e : String) :
    strIncludes (a ++ b ++ c ++ d ++ e) d = true := by
  simp only [strIncludes, String.data_append, List.append_assoc]
  exact jsIncludes_append_left _ _ _ (jsIncludes_append_left _ _ _
    (jsIncludes_append_left _ _ _ (jsIncludes_self_append _ _)))

/-! ## Claim C2 -/

/-- DEFAULT_POLICY from src/core/policy.ts. -/
def defaultPolicy : PolicyConfig :=
  { autoApproveUnder := 25
    requireApprovalAbove := 25
    blockAbove := 1000
    dailyLimit := 200
    monthlyLimit := some 2000
    blockedKeywords := []
    allowedMerchants := []
    blockedMerchants := []
    currency := "USD" }

/-- The request of the spec's Scenario B: amount 5000 against the default
ceiling 1000. -/
def c2Request : PaymentRequest :=
  { amount := 5000
    merchant := "store.com"
    description := "gadget"
    currency := none
    metadata := [] }

/-- C2: any request with `amount > blockAbove` is denied regardless of
every other request field, configuration value and ledger content, and the
reason cites both the amount and the ceiling; concretely, with
`blockAbove = 1000` and `amount = 5000` the result is deny and the reason
contains "1000". -/
theorem blockAbove_denies_regardless :
    (∀ (r : PaymentRequest) (p : PolicyConfig) (logs : List TransactionLog) (sod som : Int),
        r.amount > p.blockAbove →
        (evaluate r p logs sod som).action = .deny ∧
        strIncludes (evaluate r p logs sod som).reason (fmtRat r.amount) = true ∧
        strIncludes (evaluate r p logs sod som).reason (fmtRat p.blockAbove) = true) ∧
    (evaluate c2Request defaultPolicy [] 0 0).action = .deny ∧
    strIncludes (evaluate c2Request defaultPolicy [] 0 0).reason "1000" = true := by
  constructor
  · intro r p logs sod som h
    have he : evaluate r p logs sod som =
        { action := .deny
          reason := "Amount $" ++ fmtRat r.amount ++ " exceeds maximum allowed ($" ++
            fmtRat p.blockAbove ++ ")" } := by
      simp only [evaluate]
      rw [if_pos h]
    rw [he]
    exact ⟨rfl, strIncludes_second_of_five _ _ _ _ _, strIncludes_fourth_of_five _ _ _ _ _⟩
  · constructor
    · decide
    · decide

/-- Witness for C2 at the concrete Scenario B input. -/
theorem blockAbove_denies_regardless_witness :
    c2Request.amount > defaultPolicy.blockAbove ∧
    (evaluate c2Request defaultPolicy [] 0 0).action = .deny :=
  ⟨by decide, (blockAbove_denies_regardless.1 c2Request defaultPolicy [] 0 0 (by decide)).1⟩

/-! ## Claim C3 -/

/-- The claim's daily aggregate, worded as the spec words it: the sum of the
payment amounts of exactly those ledger entries with `approved = true` and a
timestamp inside the current local day, whose start boundary the claim fixes
at local-clock midnight (`timestamp ≥ startOfDay`). -/
def dailySpendSpec (logs : List TransactionLog) (startOfDay : Int) : ℚ :=
  ((logs.filter fun l => decide (l.approved = true ∧ startOfDay ≤ l.timestamp)).map
    fun l => l.payment.amount).sum

/-- Monthly analogue of `dailySpendSpec` from first-of-month midnight. -/
def monthSpendSpec (logs : List TransactionLog) (startOfMonth : Int) : ℚ :=
  ((logs.filter fun l => decide (l.approved = true ∧ startOfMonth ≤ l.timestamp)).map
    fun l => l.payment.amount).sum

theorem foldl_add_amounts (l : List TransactionLog) (a : ℚ) :
    l.foldl (fun sum x => sum + x.payment.amount) a =
      a + (l.map fun x => x.payment.amount).sum := by
  induction l generalizing a with
  | nil => simp
  | cons x t ih => simp [List.foldl_cons, ih]; ring

/-- C3: the daily (and monthly) aggregates sum exactly the approved entries
with timestamp at or after the window start, and entries with
`approved = false` never contribute to either aggregate. -/
theorem spending_aggregates_sum_exactly_approved :
    (∀ (logs : List TransactionLog) (sod : Int),
        getTodaySpending logs sod = dailySpendSpec logs sod) ∧
    (∀ (logs : List TransactionLog) (som : Int),
        getMonthSpending logs som = monthSpendSpec logs som) ∧
    (∀ (pre post : List TransactionLog) (e : TransactionLog), e.approved = false →
        ∀ (sod som : Int),
          getTodaySpending (pre ++ e :: post) sod = getTodaySpending (pre ++ post) sod ∧
          getMonthSpending (pre ++ e :: post) som = getMonthSpending (pre ++ post) som) := by
  refine ⟨?_, ?_, ?_⟩
  · intro logs sod
    have hfil : List.filter (fun l => l.approved && decide (sod ≤ l.timestamp)) logs =
        List.filter (fun l => decide (l.approved = true ∧ sod ≤ l.timestamp)) logs := by
      apply List.filter_congr
      intro a _
      cases h : a.approved <;> simp [h]
    rw [getTodaySpending, dailySpendSpec, foldl_add_amounts, zero_add, hfil]
  · intro logs som
    have hfil : List.filter (fun l => l.approved && decide (som ≤ l.timestamp)) logs =
        List.filter (fun l => decide (l.approved = true ∧ som ≤ l.timestamp)) logs := by
      apply List.filter_congr
      intro a _
      cases h : a.approved <;> simp [h]
    rw [getMonthSpending, monthSpendSpec, foldl_add_amounts, zero_add, hfil]
  · intro pre post e he sod som
    constructor <;>
      simp [getTodaySpending, getMonthSpending, List.filter_append, List.filter_cons, he]

/-- A denied ledger entry for the C3 witness. -/
def c3DeniedEntry : TransactionLog :=
  { id := "t1"
    timestamp := 50
    payment := c1Request
    policyResult := { action := .deny, reason := "blocked" }
    approved := false
    approvedBy := .auto }

/-- Witness for C3: a concrete denied entry contributes nothing to the daily
aggregate. -/
theorem spending_aggregates_sum_exactly_approved_witness :
    c3DeniedEntry.approved = false ∧
    getTodaySpending ([] ++ c3DeniedEntry :: []) 0 = getTodaySpending ([] ++ []) 0 :=
  ⟨rfl, (spending_aggregates_sum_exactly_approved.2.2 [] [] c3DeniedEntry rfl 0 0).1⟩

/-! ## CardDetails and the ClawPay façade (src/core/clawpay.ts) -/

/-- BillingAddress from src/types/index.ts. -/
structure BillingAddress where
  line1 : String
  line2 : Option String
  city : String
  state : String
  postalCode : String
  country : String
deriving DecidableEq

/-- CardDetails from src/types/index.ts. -/
structure CardDetails where
  cardholderName : String
  number : String
  expMonth : String
  expYear : String
  cvv : String
  billingAddress : Option BillingAddress
deriving DecidableEq

/-- ClawPay.logTransaction: appends an entry to the transaction log unless
`config.logging.enabled` is false (`if (!this.config.logging.enabled) return`).
The entry id and timestamp (`randomUUID()`, `Date.now()`) are externalized
as arguments; PolicyEngine.logTransaction pushes onto the parsed log array. -/
def logTransaction (loggingEnabled : Bool) (logs : List TransactionLog)
    (newId : String) (now : Int) (payment : PaymentRequest)
    (policyResult : PolicyResult) (approved : Bool) (approvedBy : ApprovedBy) :
    List TransactionLog :=
  if !loggingEnabled then logs
  else logs ++ [{ id := newId, timestamp := now, payment := payment,
                  policyResult := policyResult, approved := approved,
                  approvedBy := approvedBy }]

/-- The approval wait timeout: `(config.timeout || 300) * 1000` — the same
expression at both call sites (ClawPay.requestCard and requestApproval).
JS truthiness: an absent or zero timeout falls back to 300 seconds. -/
def effectiveTimeoutMs (timeout : Option ℚ) : ℚ :=
  (match timeout with
   | some t => if t != 0 then t else 300
   | none => 300) * 1000

/-- The observable outcome of one ClawPay.requestCard call: the returned
value (`approved`/`reason`/`card`), the transaction log after the call, plus
two bits of instrumentation: whether `this.policy.evaluate` ran, and the
timeout handed to the approval wait (when one was started). -/
structure RequestCardOutcome where
  approved : Bool
  reason : Option String
  card : Option CardDetails
  logs : List TransactionLog
  policyInvoked : Bool
  approvalTimeoutMs : Option ℚ
deriving DecidableEq

/-- ClawPay.requestCard.  State and collaborators are externalized:
`hasCard`/`storedCard` stand for the vault (`getCard` returns the stored
card when one exists), `logs` is the persisted transaction log,
`approvalDecision` is the boolean the approval channel (or `onApproval`
callback) resolves to, and `newId`/`now` are the fresh UUID and clock
reading used for the log entry. -/
def requestCard (hasCard : Bool) (storedCard : CardDetails)
    (logs : List TransactionLog) (policies : PolicyConfig)
    (loggingEnabled : Bool) (approvalTimeout : Option ℚ)
    (approvalDecision : Bool) (request : PaymentRequest)
    (startOfDay startOfMonth : Int) (newId : String) (now : Int) :
    RequestCardOutcome :=
  if !hasCard then
    { approved := false
      reason := some "No card stored. Run `clawpay add-card` first."
      card := none
      logs := logs
      policyInvoked := false
      approvalTimeoutMs := none }
  else
    let policyResult := evaluate request policies logs startOfDay startOfMonth
    if policyResult.action = .deny then
      { approved := false
        reason := some policyResult.reason
        card := none
        logs := logTransaction loggingEnabled logs newId now request policyResult false .auto
        policyInvoked := true
        approvalTimeoutMs := none }
    else if policyResult.action = .auto_approve then
      { approved := true
        reason := none
        card := some storedCard
        logs := logTransaction loggingEnabled logs newId now request policyResult true .auto
        policyInvoked := true
        approvalTimeoutMs := none }
    else
      let timeoutMs := effectiveTimeoutMs approvalTimeout
      if !approvalDecision then
        { approved := false
          reason := some "Payment denied by user."
          card := none
          logs := logTransaction loggingEnabled logs newId now request policyResult false .human
          policyInvoked := true
          approvalTimeoutMs := some timeoutMs }
      else
        { approved := true
          reason := none
          card := some storedCard
          logs := logTransaction loggingEnabled logs newId now request policyResult true .human
          policyInvoked := true
          approvalTimeoutMs := some timeoutMs }

/-! ## Claims C4, C5, C10 -/

/-- A concrete stored card. -/
def c0Card : CardDetails :=
  { cardholderName := "Ada"
    number := "4111111111111111"
    expMonth := "12"
    expYear := "30"
    cvv := "123"
    billingAddress := none }

/-- A prior approved entry of 190 timestamped inside the current day. -/
def c4ApprovedEntry : TransactionLog :=
  { id := "t2"
    timestamp := 100
    payment := { amount := 190, merchant := "store.com", description := "prior",
                 currency := none, metadata := [] }
    policyResult := { action := .auto_approve, reason := "ok" }
    approved := true
    approvedBy := .auto }

/-- A small follow-up request of 20. -/
def c4Request : PaymentRequest :=
  { amount := 20
    merchant := "store.com"
    description := "more"
    currency := none
    metadata := [] }

/-- Claim C4 as stated is false: with logging disabled, policy evaluation
does NOT treat historical spend as zero — evaluate reads whatever ledger
exists regardless of the logging flag.  With a prior approved 190 on the
ledger, dailyLimit 200 and a new request of 20, requestCard with logging
disabled denies (190 + 20 > 200), whereas under the claim (prior spend
treated as zero) the identical call with an empty ledger auto-approves. -/
theorem requestCard_logging_disabled_still_reads_ledger :
    (requestCard true c0Card [c4ApprovedEntry] defaultPolicy false none true
        c4Request 0 0 "id" 200).approved = false ∧
    (requestCard true c0Card [] defaultPolicy false none true
        c4Request 0 0 "id" 200).approved = true := by
  constructor
  · norm_num [requestCard, evaluate, getTodaySpending, getMonthSpending,
      jsTruthyNum, jsTruthyStr, logTransaction, defaultPolicy, c4ApprovedEntry,
      c4Request, bne_iff_ne]
  · norm_num [requestCard, evaluate, getTodaySpending, getMonthSpending,
      jsTruthyNum, jsTruthyStr, logTransaction, defaultPolicy, c4ApprovedEntry,
      c4Request, bne_iff_ne]
    decide

/-- C4 amended: disabling logging makes logTransaction a no-op (no ledger
entry is ever appended), and an empty ledger yields zero daily and monthly
spend, so a system that has logging disabled from the start sees no
historical spend; evaluation itself, however, still reads any pre-existing
ledger entries. -/
theorem logging_disabled_appends_nothing :
    (∀ (logs : List TransactionLog) (nid : String) (now : Int)
        (payment : PaymentRequest) (pres : PolicyResult) (ap : Bool) (ab : ApprovedBy),
        logTransaction false logs nid now payment pres ap ab = logs) ∧
    (∀ sod : Int, getTodaySpending [] sod = 0) ∧
    (∀ som : Int, getMonthSpending [] som = 0) :=
  ⟨fun _ _ _ _ _ _ _ => rfl, fun _ => rfl, fun _ => rfl⟩

/-- Claim C5 as stated is false only in its quoted reason literal: the code
returns "No card stored. Run `clawpay add-card` first.", not
"no credential available". -/
theorem requestCard_no_card_reason_not_spec_literal :
    (requestCard false c0Card [] defaultPolicy true none true c1Request 0 0 "id" 0).reason ≠
      some "no credential available" := by
  decide

/-- C5 amended: with no card in the vault, requestCard returns approved:false
with reason "No card stored. Run `clawpay add-card` first.", does not invoke
the policy evaluator, and appends no ledger entry. -/
theorem requestCard_without_card (sc : CardDetails) (logs : List TransactionLog)
    (p : PolicyConfig) (le : Bool) (t : Option ℚ) (d : Bool) (r : PaymentRequest)
    (sod som : Int) (nid : String) (now : Int) :
    requestCard false sc logs p le t d r sod som nid now =
      { approved := false
        reason := some "No card stored. Run `clawpay add-card` first."
        card := none
        logs := logs
        policyInvoked := false
        approvalTimeoutMs := none } := rfl

/-- A request of 50, above the default auto-approve ceiling of 25, reaching
the human-approval path. -/
def c10Request : PaymentRequest :=
  { amount := 50
    merchant := "store.com"
    description := "gear"
    currency := none
    metadata := [] }

/-- C10: on the human-approval path, an absent or zero configured approval
timeout yields the 300-second default (300000 ms), not an immediate timeout
and not an unbounded wait. -/
theorem requestCard_uses_default_timeout (sc : CardDetails)
    (logs : List TransactionLog) (p : PolicyConfig) (le d : Bool)
    (t : Option ℚ) (r : PaymentRequest) (sod som : Int) (nid : String) (now : Int)
    (ht : t = none ∨ t = some 0)
    (ha : (evaluate r p logs sod som).action = .require_approval) :
    (requestCard true sc logs p le t d r sod som nid now).approvalTimeoutMs =
      some 300000 := by
  rcases ht with h | h <;>
    cases d <;>
      simp [requestCard, ha, h, effectiveTimeoutMs] <;> norm_num

/-- Witness for C10 at a concrete require-approval run with an absent
timeout. -/
theorem requestCard_uses_default_timeout_witness :
    ((none : Option ℚ) = none ∨ (none : Option ℚ) = some 0) ∧
    (evaluate c10Request defaultPolicy [] 0 0).action = .require_approval ∧
    (requestCard true c0Card [] defaultPolicy true none true
        c10Request 0 0 "id" 0).approvalTimeoutMs = some 300000 :=
  ⟨Or.inl rfl,
   by norm_num [evaluate, getTodaySpending, getMonthSpending, jsTruthyNum,
     jsTruthyStr, defaultPolicy, c10Request, bne_iff_ne],
   requestCard_uses_default_timeout c0Card [] defaultPolicy true true none
     c10Request 0 0 "id" 0 (Or.inl rfl)
     (by norm_num [evaluate, getTodaySpending, getMonthSpending, jsTruthyNum,
       jsTruthyStr, defaultPolicy, c10Request, bne_iff_ne])⟩

/-! ## Claim C6: approval reply handling -/

/-- The affirmative tokens of whatsappApproval:
`["yes", "approve", "y", "approved"]`. -/
def whatsappAffirmativeTokens : List String := ["yes", "approve", "y", "approved"]

/-- The negative tokens of whatsappApproval:
`["no", "deny", "n", "denied", "reject"]`. -/
def whatsappNegativeTokens : List String := ["no", "deny", "n", "denied", "reject"]

/-- whatsappApproval's handling of a received (non-null) reply
(src/approval/whatsapp.ts): normalizes with `trim().toLowerCase()`, checks
the two token sets, and returns the decision together with the message sent
back to the human. -/
def whatsappApprovalReply (reply : String) : Bool × String :=
  let normalized := jsToLower (jsTrim reply)
  let approved := whatsappAffirmativeTokens.contains normalized
  let denied := whatsappNegativeTokens.contains normalized
  if approved then (true, "✅ Payment approved.")
  else if denied then (false, "❌ Payment denied.")
  else (false, "Unrecognized reply \"" ++ reply ++ "\". Payment denied for safety.")

/-- terminalApproval's handling of a typed answer
(src/approval/terminal.ts): `answer.trim().toLowerCase() === "yes"`, with
the approved/denied line printed afterwards. -/
def terminalApprovalReply (answer : String) : Bool × String :=
  let approved := jsToLower (jsTrim answer) == "yes"
  (approved, if approved then "✅ Payment approved." else "❌ Payment denied.")

theorem strIncludes_second_of_three (a b c : String) :
    strIncludes (a ++ b ++ c) b = true := by
  simp only [strIncludes, String.data_append, List.append_assoc]
  exact jsIncludes_append_left _ _ _ (jsIncludes_self_append _ _)

/-- Claim C6 as stated is false for the terminal channel: an ambiguous reply
("maybe") is denied fail-closed, but the human is NOT told why — the printed
message neither mentions the reply nor differs from the message printed for
an ordinary negative reply. -/
theorem terminal_ambiguous_reply_not_told_why :
    (terminalApprovalReply "maybe").1 = false ∧
    strIncludes (terminalApprovalReply "maybe").2 "maybe" = false ∧
    (terminalApprovalReply "maybe").2 = (terminalApprovalReply "no").2 := by
  decide

/-- C6 amended: replies are normalized with `trim().toLowerCase()` on both
channels, and the decision depends only on the normalized reply.  WhatsApp:
the explicit affirmative set yields approval, the explicit negative set
yields denial, and anything else yields denial with a reply-naming
explanation sent to the human.  Terminal: exactly the normalized reply
"yes" approves; every other reply is denied, with a generic denial message
(no distinct explanation for ambiguity). -/
theorem approval_reply_normalization (reply : String) :
    (whatsappAffirmativeTokens.contains (jsToLower (jsTrim reply)) = true →
      whatsappApprovalReply reply = (true, "✅ Payment approved.")) ∧
    (whatsappAffirmativeTokens.contains (jsToLower (jsTrim reply)) = false →
      whatsappNegativeTokens.contains (jsToLower (jsTrim reply)) = true →
      whatsappApprovalReply reply = (false, "❌ Payment denied.")) ∧
    (whatsappAffirmativeTokens.contains (jsToLower (jsTrim reply)) = false →
      whatsappNegativeTokens.contains (jsToLower (jsTrim reply)) = false →
      (whatsappApprovalReply reply).1 = false ∧
      strIncludes (whatsappApprovalReply reply).2 reply = true) ∧
    ((terminalApprovalReply reply).1 = (jsToLower (jsTrim reply) == "yes")) ∧
    (∀ r2 : String, jsToLower (jsTrim reply) = jsToLower (jsTrim r2) →
      (whatsappApprovalReply reply).1 = (whatsappApprovalReply r2).1 ∧
      (terminalApprovalReply reply).1 = (terminalApprovalReply r2).1) := by
  refine ⟨?_, ?_, ?_, rfl, ?_⟩
  · intro h
    have h' : jsToLower (jsTrim reply) ∈ whatsappAffirmativeTokens := by simpa using h
    simp [whatsappApprovalReply, h']
  · intro h1 h2
    have h1' : jsToLower (jsTrim reply) ∉ whatsappAffirmativeTokens := by simpa using h1
    have h2' : jsToLower (jsTrim reply) ∈ whatsappNegativeTokens := by simpa using h2
    simp [whatsappApprovalReply, h1', h2']
  · intro h1 h2
    have h1' : jsToLower (jsTrim reply) ∉ whatsappAffirmativeTokens := by simpa using h1
    have h2' : jsToLower (jsTrim reply) ∉ whatsappNegativeTokens := by simpa using h2
    constructor
    · simp [whatsappApprovalReply, h1', h2']
    · have hmsg : (whatsappApprovalReply reply).2 =
          "Unrecognized reply \"" ++ reply ++ "\". Payment denied for safety." := by
        simp [whatsappApprovalReply, h1', h2']
      rw [hmsg]
      exact strIncludes_second_of_three _ _ _
  · intro r2 h
    constructor
    · simp only [whatsappApprovalReply, h]
      by_cases ha : jsToLower (jsTrim r2) ∈ whatsappAffirmativeTokens
      · simp [ha]
      · by_cases hd : jsToLower (jsTrim r2) ∈ whatsappNegativeTokens
        · simp [ha, hd]
        · simp [ha, hd]
    · simp [terminalApprovalReply, h]

/-- Witness for C6 (amended) at a concrete affirmative reply with mixed case
and padding. -/
theorem approval_reply_normalization_witness :
    whatsappAffirmativeTokens.contains (jsToLower (jsTrim " YES ")) = true ∧
    whatsappApprovalReply " YES " = (true, "✅ Payment approved.") :=
  ⟨by decide, (approval_reply_normalization " YES ").1 (by decide)⟩

/-! ## Claim C7: unknown approval channel -/

/-- Outcome of requestApproval: a returned boolean, or a thrown Error. -/
inductive ApprovalOutcome where
  | ok (approved : Bool)
  | thrown (message : String)
deriving DecidableEq

/-- The ApprovalMethod union of src/types/index.ts — the values the switch
in requestApproval has cases for. -/
def knownApprovalMethods : List String :=
  ["terminal", "webhook", "slack", "callback", "telegram", "whatsapp"]

/-- requestApproval routing (src/approval/index.ts).  Channel handlers are
externalized as the booleans they would resolve to; `throw new Error(...)`
becomes the `thrown` outcome (apostrophes elided from thrown text).  The
missing-configuration checks use JS truthiness (`!config.webhookUrl`), and
the default branch of the switch logs and returns false. -/
def requestApproval (method : String)
    (webhookUrl slackWebhookUrl telegramBotToken telegramChatId : Option String)
    (terminalResult webhookResult telegramResult : Bool) : ApprovalOutcome :=
  if method == "terminal" then .ok terminalResult
  else if method == "webhook" then
    if !(jsTruthyStr webhookUrl) then .thrown "Webhook URL not configured for approval."
    else .ok webhookResult
  else if method == "slack" then
    if !(jsTruthyStr slackWebhookUrl) then
      .thrown "Slack webhook URL not configured for approval."
    else .ok webhookResult
  else if method == "telegram" then
    if !(jsTruthyStr telegramBotToken) || !(jsTruthyStr telegramChatId) then
      .thrown "Telegram bot token and chat ID are required for Telegram approval."
    else .ok telegramResult
  else if method == "whatsapp" then
    .thrown "WhatsApp approval requires the OpenClaw messaging layer."
  else if method == "callback" then
    .thrown "Callback approval must be handled by the integration layer."
  else .ok false

/-- C7: a configured approval method outside the known channel values makes
requestApproval return false (denial) instead of throwing. -/
theorem requestApproval_unknown_method_denies (method : String)
    (wu su tb tc : Option String) (tr wr gr : Bool)
    (h : method ∉ knownApprovalMethods) :
    requestApproval method wu su tb tc tr wr gr = .ok false := by
  simp only [knownApprovalMethods, List.mem_cons, List.not_mem_nil, or_false] at h
  push_neg at h
  obtain ⟨h1, h2, h3, h4, h5, h6⟩ := h
  simp [requestApproval, h1, h2, h3, h4, h5, h6]

/-- Witness for C7 at a typo'd method name. -/
theorem requestApproval_unknown_method_denies_witness :
    "telgram" ∉ knownApprovalMethods ∧
    requestApproval "telgram" none none none none true true true = .ok false :=
  ⟨by decide,
   requestApproval_unknown_method_denies "telgram" none none none none true true true
     (by decide)⟩

/-! ## Claim C9: exactly-once resolution -/

/-- The two signals that can resolve terminalApproval's pending promise: the
rl.question callback delivering the typed answer, or the setTimeout timer. -/
inductive ApprovalEvent where
  | reply (answer : String)
  | timeout
deriving DecidableEq

/-- The decision each signal resolves the promise to: the timer resolves
false; the answer callback resolves `answer.trim().toLowerCase() === "yes"`. -/
def resolveEvent : ApprovalEvent → Bool
  | .reply answer => jsToLower (jsTrim answer) == "yes"
  | .timeout => false

/-- The per-request lifecycle: Created, or terminally resolved to a
decision.  A JS promise resolves exactly once — `resolve` on an
already-settled promise is a no-op — which is what terminalApproval's race
between the timer and the question callback relies on. -/
inductive ApprovalState where
  | created
  | resolved (decision : Bool)
deriving DecidableEq

/-- One signal arriving at the promise. -/
def stepApproval : ApprovalState → ApprovalEvent → ApprovalState
  | .created, e => .resolved (resolveEvent e)
  | .resolved d, _ => .resolved d

/-- A full interleaving of signals, in arrival order. -/
def runApproval (events : List ApprovalEvent) : ApprovalState :=
  events.foldl stepApproval .created

/-- C9: under any interleaving, the first signal alone determines the
decision — in particular when both a reply and the timeout occur — and any
signal arriving after resolution is a no-op that cannot overturn the
decision. -/
theorem approval_resolves_exactly_once :
    (∀ (e : ApprovalEvent) (rest : List ApprovalEvent),
        runApproval (e :: rest) = .resolved (resolveEvent e)) ∧
    (∀ (d : Bool) (e : ApprovalEvent), stepApproval (.resolved d) e = .resolved d) := by
  constructor
  · have hstay : ∀ (l : List ApprovalEvent) (d : Bool),
        l.foldl stepApproval (.resolved d) = .resolved d := by
      intro l
      induction l with
      | nil => intro d; rfl
      | cons x t ih => intro d; simpa [stepApproval] using ih d
    intro e rest
    simp [runApproval, stepApproval, hstay]
  · intro d e
    rfl

/-! ## Claim C8: Vault encryption (src/core/vault.ts)

Vault.encrypt and Vault.decrypt wrap node:crypto's AES-256-GCM
(`createCipheriv`/`createDecipheriv`): encrypt draws a random IV, produces
ciphertext plus an authentication tag, and stores the `(iv, authTag, data)`
triple; decrypt sets the expected tag and fails (throws) when the tag does
not verify.  The cipher core itself is not part of this repository. -/

/-- Byte-level XOR fold, the accumulator of the modelled authentication
tag. -/
def xorFold (l : List Nat) : Nat := l.foldr (fun a b => a ^^^ b) 0

/-- Modelled from the spec: the AES-256-GCM keystream of node:crypto is not
in this repository; §4.1 requires authenticated symmetric encryption with a
key- and IV-dependent cipher, modelled here as a XOR stream cipher keyed on
the key and IV digests and the byte position. -/
def ksByte (key iv : List Nat) (i : Nat) : Nat :=
  xorFold key ^^^ xorFold iv ^^^ i

/-- XOR-stream encryption/decryption from byte position `i` (XOR with the
keystream is its own inverse, as for AES-GCM's counter mode). -/
def xorStream (key iv : List Nat) : Nat → List Nat → List Nat
  | _, [] => []
  | i, p :: rest => (p ^^^ ksByte key iv i) :: xorStream key iv (i + 1) rest

/-- Modelled from the spec: GCM's GHASH tag over the ciphertext is not in
this repository; §4.1 requires a tag that authenticates the ciphertext under
the key, modelled as the key/IV-keyed XOR digest of the ciphertext (any
single-bit change of the ciphertext flips the corresponding tag bit). -/
def authTagOf (key iv ct : List Nat) : Nat :=
  xorFold ct ^^^ (xorFold key ^^^ xorFold iv)

/-- EncryptedPayload from src/types/index.ts: the persisted
`(iv, authTag, data)` triple, over byte sequences (the hex transport
encoding of the source is a bijection and is elided). -/
structure EncryptedPayload where
  iv : List Nat
  authTag : Nat
  data : List Nat
deriving DecidableEq

/-- Decryption failure surfaced by Vault.decrypt when the tag does not
verify. -/
inductive VaultError where
  | decryptionFailure
deriving DecidableEq

/-- Vault.encrypt: encrypts the serialized credential bytes under the key
with a caller-supplied fresh IV (`randomBytes` externalized), and stores IV,
authentication tag and ciphertext together. -/
def Vault.encrypt (key iv plaintext : List Nat) : EncryptedPayload :=
  let ct := xorStream key iv 0 plaintext
  { iv := iv, authTag := authTagOf key iv ct, data := ct }

/-- Vault.decrypt: verifies the authentication tag of the stored payload
(GCM's `final()` check) and fails closed with a DecryptionFailure when it
does not match; only a verified payload is decrypted. -/
def Vault.decrypt (key : List Nat) (p : EncryptedPayload) :
    Except VaultError (List Nat) :=
  if authTagOf key p.iv p.data = p.authTag then
    .ok (xorStream key p.iv 0 p.data)
  else
    .error .decryptionFailure

/-- Flips bit `b` of the byte at index `j` (out-of-range indices leave the
list unchanged). -/
def flipBitAt (l : List Nat) (j b : Nat) : List Nat :=
  match l, j with
  | [], _ => []
  | x :: t, 0 => (x ^^^ 2 ^ b) :: t
  | x :: t, j + 1 => x :: flipBitAt t j b

/-- A stored payload with one ciphertext bit flipped. -/
def tamperData (p : EncryptedPayload) (j b : Nat) : EncryptedPayload :=
  { p with data := flipBitAt p.data j b }

/-- A stored payload with one authentication-tag bit flipped. -/
def tamperTag (p : EncryptedPayload) (b : Nat) : EncryptedPayload :=
  { p with authTag := p.authTag ^^^ 2 ^ b }

theorem xorStream_xorStream (key iv : List Nat) (l : List Nat) :
    ∀ i, xorStream key iv i (xorStream key iv i l) = l := by
  induction l with
  | nil => intro i; rfl
  | cons p rest ih =>
    intro i
    simp [xorStream, Nat.xor_cancel_right, ih]

theorem xorFold_flipBitAt (l : List Nat) :
    ∀ j b, j < l.length → xorFold (flipBitAt l j b) = xorFold l ^^^ 2 ^ b := by
  induction l with
  | nil => intro j b h; exact absurd h (by simp)
  | cons x t ih =>
    intro j b h
    cases j with
    | zero =>
      show (x ^^^ 2 ^ b) ^^^ xorFold t = (x ^^^ xorFold t) ^^^ 2 ^ b
      rw [Nat.xor_assoc, Nat.xor_assoc, Nat.xor_comm (2 ^ b)]
    | succ j =>
      have h' : j < t.length := by simpa using h
      show x ^^^ xorFold (flipBitAt t j b) = (x ^^^ xorFold t) ^^^ 2 ^ b
      rw [ih j b h', Nat.xor_assoc]

theorem two_pow_xor_ne (x b : Nat) : x ^^^ 2 ^ b ≠ x := by
  intro h
  have h0 : x ^^^ 2 ^ b = x ^^^ 0 := by simpa using h
  have := Nat.xor_right_inj.mp h0
  exact absurd this (Nat.pos_iff_ne_zero.mp (Nat.pos_pow_of_pos b (by norm_num)))

/-- C8: decrypting the encryption of any credential payload under the same
key returns the original payload, and any single-bit mutation of the stored
ciphertext or of the stored authentication tag makes decryption fail with
DecryptionFailure — altered plaintext is never returned. -/
theorem vault_roundtrip_and_tamper_detection :
    (∀ (key iv plaintext : List Nat),
        Vault.decrypt key (Vault.encrypt key iv plaintext) = .ok plaintext) ∧
    (∀ (key iv plaintext : List Nat) (j b : Nat),
        j < (Vault.encrypt key iv plaintext).data.length → b < 8 →
        Vault.decrypt key (tamperData (Vault.encrypt key iv plaintext) j b) =
          .error .decryptionFailure) ∧
    (∀ (key iv plaintext : List Nat) (b : Nat), b < 8 →
        Vault.decrypt key (tamperTag (Vault.encrypt key iv plaintext) b) =
          .error .decryptionFailure) := by
  refine ⟨?_, ?_, ?_⟩
  · intro key iv plaintext
    simp [Vault.encrypt, Vault.decrypt, xorStream_xorStream]
  · intro key iv plaintext j b hj _hb
    have hlen : j < (xorStream key iv 0 plaintext).length := by
      simpa [Vault.encrypt] using hj
    have hfold := xorFold_flipBitAt (xorStream key iv 0 plaintext) j b hlen
    have hne : authTagOf key iv (flipBitAt (xorStream key iv 0 plaintext) j b) ≠
        authTagOf key iv (xorStream key iv 0 plaintext) := by
      simp only [authTagOf, hfold]
      rw [Nat.xor_assoc, Nat.xor_comm (2 ^ b), ← Nat.xor_assoc]
      exact two_pow_xor_ne _ b
    simp [Vault.decrypt, Vault.encrypt, tamperData, hne]
  · intro key iv plaintext b _hb
    have hne : authTagOf key iv (xorStream key iv 0 plaintext) ≠
        authTagOf key iv (xorStream key iv 0 plaintext) ^^^ 2 ^ b :=
      fun hcontra => two_pow_xor_ne _ b hcontra.symm
    simp [Vault.decrypt, Vault.encrypt, tamperTag, hne]

/-- Witness for C8 on a concrete key, IV and payload, with bit 1 of byte 0
flipped. -/
theorem vault_roundtrip_and_tamper_detection_witness :
    Vault.decrypt [7] (Vault.encrypt [7] [3] [104, 105]) = .ok [104, 105] ∧
    0 < (Vault.encrypt [7] [3] [104, 105]).data.length ∧
    Vault.decrypt [7] (tamperData (Vault.encrypt [7] [3] [104, 105]) 0 1) =
      .error .decryptionFailure ∧
    Vault.decrypt [7] (tamperTag (Vault.encrypt [7] [3] [104, 105]) 1) =
      .error .decryptionFailure :=
  ⟨vault_roundtrip_and_tamper_detection.1 [7] [3] [104, 105],
   by decide,
   vault_roundtrip_and_tamper_detection.2.1 [7] [3] [104, 105] 0 1
     (by decide) (by decide),
   vault_roundtrip_and_tamper_detection.2.2 [7] [3] [104, 105] 1 (by decide)⟩

end Clawpay
